import Mathlib

/-!
Verification of the MHS membership system server (`src/server.py`) against
its natural-language specification.

The server is a Flask application over a SQLite store with four tables:
`members`, `family_members`, `attendance`, `sessions`.  We embed the store
as a record of lists (SQLite inserts append rows; `find?` models the
first-row semantics of scalar `SELECT`s over unique keys) and each HTTP
handler as a pure function from the store and the request inputs to a
result and an updated store.

Time: the server stores ISO-8601 strings (`datetime.now().isoformat()`,
`date().isoformat()`) and compares them either as parsed datetimes
(`datetime.fromisoformat(e) > datetime.now()`) or directly as strings in
SQL (`expires_at > ?`) and in Python (`expiry_date < today`).  For
consistently formatted ISO strings both comparisons are order-isomorphic
to lexicographic string comparison, so the model compares the stored
strings lexicographically in all three places; "now" and "today" are
passed in explicitly as strings.

`hashlib.sha256(...).hexdigest()` is modelled as an injective tagging of
the password, idealising the hash as collision-free.
-/

namespace MHS

/-- Lexicographic comparison of character lists by code point. -/
def listLt : List Char → List Char → Bool
  | _, [] => false
  | [], _ :: _ => true
  | a :: as, b :: bs =>
    if a.toNat < b.toNat then true
    else if b.toNat < a.toNat then false
    else listLt as bs

/-- Lexicographic string comparison by code point, standing for both
SQLite text comparison and Python comparison of ISO-8601 timestamp
strings (for such strings both are exactly this order). -/
def strLt (a b : String) : Bool := listLt a.data b.data

/-- Python `str.strip()`: drop leading and trailing whitespace. -/
def pyStrip (s : String) : String :=
  ⟨((s.data.dropWhile Char.isWhitespace).reverse.dropWhile Char.isWhitespace).reverse⟩

/-- Python `str.lower()`. -/
def pyLower (s : String) : String := ⟨s.data.map Char.toLower⟩

/-- Model of `hash_password` (`server.py` line 148): SHA-256 hex digest,
idealised as an injective encoding of the password. -/
def hash_password (password : String) : String := "sha256:" ++ password

/-- A row of the `members` table (schema at `server.py` lines 53-70).
`id` is the AUTOINCREMENT primary key; `created_at` is omitted (it is only
used for display ordering). -/
structure Member where
  id : Nat
  member_number : String
  first_name : String
  surname : String
  email : String
  phone : String
  password_hash : String
  membership_type : String
  expiry_date : String
  status : String
  photo_url : String
  points : Int
  is_admin : Bool
deriving Repr, DecidableEq

/-- A row of the `family_members` table (lines 73-82): a dependent owned
by the member whose `id` equals `primary_member_id`. -/
structure FamilyMember where
  primary_member_id : Nat
  member_number : String
  name : String
  relationship : String
deriving Repr, DecidableEq

/-- A row of the `attendance` table (lines 85-96). -/
structure AttendanceRecord where
  member_number : String
  member_name : String
  event_name : String
  scanned_by : String
  timestamp : String
  points_awarded : Int
  status : String
deriving Repr, DecidableEq

/-- A row of the `sessions` table (lines 99-108). -/
structure Session where
  email : String
  token : String
  role : String
  expires_at : String
deriving Repr, DecidableEq

/-- The SQLite database: one list of rows per table, in insertion order. -/
structure DB where
  members : List Member
  family_members : List FamilyMember
  attendance : List AttendanceRecord
  sessions : List Session
deriving Repr, DecidableEq

/-- The identity returned by `verify_token`: the `LEFT JOIN members` makes
the member columns nullable when no member matches the session email. -/
structure UserInfo where
  email : String
  role : String
  first_name : Option String
  surname : Option String
  member_number : Option String
  is_admin : Option Bool
deriving Repr, DecidableEq

/-- `verify_token` (`server.py` lines 156-188): `if not token: return None`
(absent header, and empty string, are falsy in Python); otherwise select
the session row with this token whose `expires_at` is strictly greater
than `now`, LEFT JOINed with the member of the session email.  Any
failure path yields `none` (the Python `except` branch also returns
`None`, which the total model subsumes). -/
def verify_token (db : DB) (token : Option String) (now : String) : Option UserInfo :=
  match token with
  | none => none
  | some t =>
    if t = "" then none
    else
      match db.sessions.find? (fun s => s.token == t && strLt now s.expires_at) with
      | none => none
      | some s =>
        let m? := db.members.find? (fun m => m.email == s.email)
        some { email := s.email, role := s.role,
               first_name := m?.map Member.first_name,
               surname := m?.map Member.surname,
               member_number := m?.map Member.member_number,
               is_admin := m?.map Member.is_admin }

/-- The phone-number shape test of `login` (`server.py` line 416):
`email_or_phone.isdigit() and len(...) == 10 and ....startswith('0')`. -/
def isPhone (s : String) : Bool :=
  s.data.all Char.isDigit && s.length == 10 && s.data.take 1 == ['0']

/-- `'family' in member['membership_type'].lower()` (line 461): Python
substring containment. -/
def containsSub (s pat : String) : Bool :=
  (List.range (s.data.length + 1)).any (fun i => pat.data.isPrefixOf (s.data.drop i))

/-- Result of the `login` handler. -/
inductive LoginResult where
  | missingFields
  | invalidCredentials
  | accountNotActive
  | loggedIn (token : String) (role : String) (member : Member)
      (family : List FamilyMember)
deriving Repr, DecidableEq

/-- The credential lookup of `login` (lines 416-436): by phone when the
input is phone-shaped, else by lowercased email, always together with the
password hash. -/
def loginLookup (db : DB) (email_or_phone pwHash : String) : Option Member :=
  if isPhone email_or_phone then
    db.members.find? (fun m => m.phone == email_or_phone && m.password_hash == pwHash)
  else
    db.members.find? (fun m =>
      m.email == (pyLower email_or_phone) && m.password_hash == pwHash)

/-- The dependents returned by `login` (lines 460-467): those whose
`primary_member_id` is the id of the member with this email, when the
membership type contains "family". -/
def loginFamily (db : DB) (m : Member) : List FamilyMember :=
  if containsSub (pyLower m.membership_type) "family" then
    db.family_members.filter (fun fm =>
      (db.members.find? (fun x => x.email == m.email)).any
        (fun x => fm.primary_member_id == x.id))
  else []

/-- `login` (`server.py` lines 399-491).  Inputs are the raw request
fields; `newToken` stands for the value of `generate_token()` and
`expires_at` for `(datetime.now() + timedelta(days=7)).isoformat()`, both
supplied by the environment.  Missing fields are rejected first; then the
member is looked up by phone (when the input is phone-shaped) or by
lowercased email, together with the password hash; a found member with
non-active status is rejected with the explicit account-state message;
otherwise one session row is inserted and the member snapshot (with the
dependents when the membership type contains "family") is returned. -/
def login (db : DB) (email_in password_in newToken expires_at : String) :
    LoginResult × DB :=
  let email_or_phone := pyStrip email_in
  let password := pyStrip password_in
  if email_or_phone = "" ∨ password = "" then (.missingFields, db)
  else
    match loginLookup db email_or_phone (hash_password password) with
    | none => (.invalidCredentials, db)
    | some m =>
      if m.status ≠ "active" then (.accountNotActive, db)
      else
        let role := if m.is_admin then "admin" else "member"
        let sess : Session :=
          { email := m.email, token := newToken, role := role,
            expires_at := expires_at }
        (.loggedIn newToken role m (loginFamily db m),
         { db with sessions := db.sessions ++ [sess] })

/-- Result of the `/api/scan` handler. -/
inductive ScanResult where
  | notFound
  | outcome (status : String) (member_name : String) (points_awarded : Int)
deriving Repr, DecidableEq

/-- The `/api/scan` resolution (lines 629-657): first the member with this
number, else the dependent with this number JOINed with its owning member;
yields the display name and the member row whose status/expiry/points
govern the scan. -/
def resolveScan (db : DB) (scanned : String) : Option (String × Member) :=
  match db.members.find? (fun m => m.member_number == scanned) with
  | some m => some (m.first_name ++ " " ++ m.surname, m)
  | none =>
    match db.family_members.find? (fun fm => fm.member_number == scanned) with
    | none => none
    | some fm =>
      (db.members.find? (fun m => m.id == fm.primary_member_id)).map
        (fun o => (fm.name, o))

/-- `scan` (`server.py` lines 612-697), the `/api/scan` handler, after the
admin-token check: resolve the scanned number (member first, then
dependent joined with its owner); `is_active` is
`status == 'active' and fromisoformat(expiry_date) > now`; an attendance
row is always appended, `granted`/10 when active and `denied`/0 when not;
when active, points are added to every member whose number equals the
scanned number or whose id is the owning id of the first dependent with
the scanned number (the SQL UPDATE at lines 677-683). -/
def scan (db : DB) (scanned event_name admin_email now : String) :
    ScanResult × DB :=
  match resolveScan db scanned with
  | none => (.notFound, db)
  | some (member_name, m) =>
    let is_active := m.status == "active" && strLt now m.expiry_date
    let points_awarded : Int := if is_active then 10 else 0
    let st := if is_active then "granted" else "denied"
    let record : AttendanceRecord :=
      { member_number := scanned, member_name := member_name,
        event_name := event_name, scanned_by := admin_email,
        timestamp := now, points_awarded := points_awarded, status := st }
    let db1 := { db with attendance := db.attendance ++ [record] }
    let db2 :=
      if is_active then
        let oid? := (db.family_members.find? (fun fm => fm.member_number == scanned)).map
          FamilyMember.primary_member_id
        { db1 with members := db1.members.map (fun x =>
            if x.member_number == scanned || oid?.any (fun o => x.id == o) then
              { x with points := x.points + points_awarded }
            else x) }
      else db1
    (.outcome st member_name points_awarded, db2)

/-- Result of the `/api/scan-qr` handler. -/
inductive ScanQrResult where
  | missingNumber
  | notFound
  | notActive
  | expired
  | recorded (member_name : String) (points_awarded : Int)
deriving Repr, DecidableEq

/-- The `/api/scan-qr` resolution (lines 776-805): the display name and
the governing status and expiry, from the member with this number, else
from the dependent with this number joined with its owning member. -/
def resolveScanQr (db : DB) (member_number : String) :
    Option (String × String × String) :=
  match db.members.find? (fun m => m.member_number == member_number) with
  | some m => some (m.first_name ++ " " ++ m.surname, m.status, m.expiry_date)
  | none =>
    match db.family_members.find? (fun fm => fm.member_number == member_number) with
    | none => none
    | some fm =>
      (db.members.find? (fun m => m.id == fm.primary_member_id)).map
        (fun o => (fm.name, o.status, o.expiry_date))

/-- `scan_qr` (`server.py` lines 755-857), the `/api/scan-qr` handler,
after the admin-token check: the input number is trimmed and an empty
number rejected; resolution is member first, then dependent joined with
its owner (taking the owner's status and expiry); a non-active status is
rejected with no attendance row; then `expiry_date < now.date().isoformat()`
(string comparison against today's date) is rejected with no attendance
row; otherwise one `present`/10 row is appended and points are added only
when the scanned number belonged to a primary member. -/
def scan_qr (db : DB) (scanned_in event_in admin_name now today : String) :
    ScanQrResult × DB :=
  let member_number := pyStrip scanned_in
  let event_name := pyStrip event_in
  if member_number = "" then (.missingNumber, db)
  else
    let primary? := db.members.find? (fun m => m.member_number == member_number)
    match resolveScanQr db member_number with
    | none => (.notFound, db)
    | some (member_name, status, expiry_date) =>
      if status ≠ "active" then (.notActive, db)
      else if strLt expiry_date today then (.expired, db)
      else
        let record : AttendanceRecord :=
          { member_number := member_number, member_name := member_name,
            event_name := event_name, scanned_by := admin_name,
            timestamp := now, points_awarded := 10, status := "present" }
        let db1 := { db with attendance := db.attendance ++ [record] }
        let db2 :=
          if primary?.isSome then
            { db1 with members := db1.members.map (fun x =>
                if x.member_number == member_number then
                  { x with points := x.points + 10 }
                else x) }
          else db1
        (.recorded member_name 10, db2)

/-- Result of the `delete_member` handler. -/
inductive DeleteResult where
  | notFound
  | selfDeletionForbidden
  | deleted (member_number : String)
deriving Repr, DecidableEq

/-- `delete_member` (`server.py` lines 1082-1141), after the admin-token
check: look up the member by number (404 when absent), refuse deleting
the acting admin's own account, then delete in the source's order:
(1) the dependents of the member, (2) attendance rows with the member's
number, (3) attendance rows whose number is in the (already updated)
dependents table for this member, (4) sessions for the member's email,
(5) the member row; one commit at the end. -/
def delete_member (db : DB) (member_number acting_email : String) :
    DeleteResult × DB :=
  match db.members.find? (fun m => m.member_number == member_number) with
  | none => (.notFound, db)
  | some m =>
    if m.email = acting_email then (.selfDeletionForbidden, db)
    else
      let fams1 := db.family_members.filter (fun fm =>
        !(fm.primary_member_id == m.id))
      let att1 := db.attendance.filter (fun a =>
        !(a.member_number == member_number))
      let att2 := att1.filter (fun a =>
        !(fams1.any (fun fm =>
            fm.primary_member_id == m.id && fm.member_number == a.member_number)))
      let sess1 := db.sessions.filter (fun s => !(s.email == m.email))
      let mems1 := db.members.filter (fun x =>
        !(x.member_number == member_number))
      (.deleted member_number,
       { members := mems1, family_members := fams1,
         attendance := att2, sessions := sess1 })

/-- Result of the `change_password` handler. -/
inductive ChangePasswordResult where
  | missingFields
  | passwordTooShort
  | wrongCurrentPassword
  | changed
deriving Repr, DecidableEq

/-- `change_password` (`server.py` lines 1143-1191), after the token check
(`email` is the verified identity's email): both fields are required; the
length check on the new password runs BEFORE the current-password check;
a missing member row or a current-password hash mismatch is rejected as
wrong current password; on success the stored hash of every member with
this email becomes the new password's hash. -/
def change_password (db : DB) (email current_in new_in : String) :
    ChangePasswordResult × DB :=
  let current_password := pyStrip current_in
  let new_password := pyStrip new_in
  if current_password = "" ∨ new_password = "" then (.missingFields, db)
  else if new_password.length < 6 then (.passwordTooShort, db)
  else
    match db.members.find? (fun m => m.email == email) with
    | none => (.wrongCurrentPassword, db)
    | some m =>
      if m.password_hash ≠ hash_password current_password then
        (.wrongCurrentPassword, db)
      else
        (.changed,
         { db with members := db.members.map (fun x =>
             if x.email == email then
               { x with password_hash := hash_password new_password }
             else x) })

/-- Result of the `create_admin` handler. -/
inductive CreateAdminResult where
  | missingFields
  | duplicateEmail
  | duplicateMemberNumber
  | created
deriving Repr, DecidableEq

/-- `create_admin` (`server.py` lines 1015-1080), after the admin-token
check: all fields required; email then member-number uniqueness enforced;
the inserted row has empty phone, type `Solo`, expiry `2030-12-31`,
status `active`, `is_admin` set, and the `points` column left to its
DEFAULT 0.  `newId` stands for the AUTOINCREMENT id. -/
def create_admin (db : DB) (email_in password_in first_in sur_in number_in photo : String)
    (newId : Nat) : CreateAdminResult × DB :=
  let email := pyLower (pyStrip email_in)
  let password := pyStrip password_in
  let first_name := pyStrip first_in
  let surname := pyStrip sur_in
  let member_number := pyStrip number_in
  if email = "" ∨ password = "" ∨ first_name = "" ∨ surname = "" ∨ member_number = "" then
    (.missingFields, db)
  else if (db.members.find? (fun m => m.email == email)).isSome then
    (.duplicateEmail, db)
  else if (db.members.find? (fun m => m.member_number == member_number)).isSome then
    (.duplicateMemberNumber, db)
  else
    let row : Member :=
      { id := newId, member_number := member_number, first_name := first_name,
        surname := surname, email := email, phone := "",
        password_hash := hash_password password, membership_type := "Solo",
        expiry_date := "2030-12-31", status := "active", photo_url := photo,
        points := 0, is_admin := true }
    (.created, { db with members := db.members ++ [row] })

/-- Characterisation of `verify_token`: an identity comes back exactly for
a present, non-empty token stored with an expiry strictly after `now`. -/
theorem verify_token_isSome_iff (db : DB) (token : Option String) (now : String) :
    (verify_token db token now).isSome ↔
      ∃ t, token = some t ∧ t ≠ "" ∧
        ∃ s, s ∈ db.sessions ∧ s.token = t ∧ strLt now s.expires_at = true := by
  cases token with
  | none => simp [verify_token]
  | some t =>
    by_cases ht : t = ""
    · simp [verify_token, ht]
    · have hstep : (verify_token db (some t) now).isSome =
          (db.sessions.find? (fun s => s.token == t && strLt now s.expires_at)).isSome := by
        simp only [verify_token, if_neg ht]
        cases db.sessions.find? (fun s => s.token == t && strLt now s.expires_at) <;> rfl
      rw [hstep, List.find?_isSome]
      constructor
      · rintro ⟨s, hs, hp⟩
        simp only [Bool.and_eq_true, beq_iff_eq] at hp
        exact ⟨t, rfl, ht, s, hs, hp.1, hp.2⟩
      · rintro ⟨t', ht', hne, s, hs, htok, hlt⟩
        cases ht'
        exact ⟨s, hs, by simp [htok, hlt]⟩

/-! ### Concrete store fixtures

A small store used by witnesses and counterexamples: an active Family
member `mAnn` owning the dependent `fKid`, an expired member `mBob`, an
active member `mCat` whose expiry is exactly the current instant, one
attendance row each for `mAnn` and `fKid`, and one live session for
`mAnn`. -/

def now0 : String := "2026-10-12T15:00:00"

def today0 : String := "2026-10-12"

def mAnn : Member :=
  { id := 1, member_number := "M1", first_name := "Ann", surname := "Smith",
    email := "ann@x.com", phone := "0123456789",
    password_hash := hash_password "secret1", membership_type := "Family",
    expiry_date := "2027-01-01", status := "active", photo_url := "",
    points := 0, is_admin := false }

def mBob : Member :=
  { id := 2, member_number := "M2", first_name := "Bob", surname := "Stone",
    email := "bob@x.com", phone := "", password_hash := hash_password "secret2",
    membership_type := "Solo", expiry_date := "2027-01-01",
    status := "expired", photo_url := "", points := 5, is_admin := false }

def mCat : Member :=
  { id := 3, member_number := "M3", first_name := "Cat", surname := "Lee",
    email := "cat@x.com", phone := "", password_hash := hash_password "secret3",
    membership_type := "Solo", expiry_date := "2026-10-12T15:00:00",
    status := "active", photo_url := "", points := 0, is_admin := false }

def fKid : FamilyMember :=
  { primary_member_id := 1, member_number := "F1", name := "Kid Smith",
    relationship := "Child" }

def attAnn : AttendanceRecord :=
  { member_number := "M1", member_name := "Ann Smith", event_name := "Gala",
    scanned_by := "adm@x.com", timestamp := "2026-09-01T10:00:00",
    points_awarded := 10, status := "granted" }

def attKid : AttendanceRecord :=
  { member_number := "F1", member_name := "Kid Smith", event_name := "Gala",
    scanned_by := "adm@x.com", timestamp := "2026-09-01T10:05:00",
    points_awarded := 10, status := "granted" }

def sessAnn : Session :=
  { email := "ann@x.com", token := "tok1", role := "member",
    expires_at := "2026-10-20T00:00:00" }

def db0 : DB :=
  { members := [mAnn, mBob, mCat], family_members := [fKid],
    attendance := [attAnn, attKid], sessions := [sessAnn] }

/-- C8: `validate(token)` fails closed: it yields an identity exactly when
the token is present, non-empty, stored, and its expiry is strictly after
the current time; for an absent, empty, unknown or expired token (expiry
equal to now included) it returns no identity.  The model is a total
function, so no input throws. -/
theorem verify_token_fails_closed (db : DB) (token : Option String) (now : String) :
    (verify_token db token now).isSome ↔
      ∃ t, token = some t ∧ t ≠ "" ∧
        ∃ s, s ∈ db.sessions ∧ s.token = t ∧ strLt now s.expires_at = true :=
  verify_token_isSome_iff db token now

/-- C1: the spec says `deleteMember` removes the member row, its
dependents, the attendance rows of the member AND of its dependents, and
the member's sessions.  The code deletes the `family_members` rows first
and only afterwards deletes attendance rows whose number is found in the
(now already emptied) `family_members` table, so the dependents'
attendance rows survive the cascade: deleting `M1` from `db0` removes
`mAnn`, `fKid`, `attAnn` and `sessAnn`, but the dependent's row `attKid`
is still present afterwards. -/
theorem delete_member_cascade_misses_dependent_attendance :
    (delete_member db0 "M1" "admin@x.com").1 = .deleted "M1" ∧
    (delete_member db0 "M1" "admin@x.com").2.members = [mBob, mCat] ∧
    (delete_member db0 "M1" "admin@x.com").2.family_members = [] ∧
    (delete_member db0 "M1" "admin@x.com").2.sessions = [] ∧
    (delete_member db0 "M1" "admin@x.com").2.attendance = [attKid] := by
  decide

/-- C2 counterexample: the claim requires every resolvable scan to append
exactly one attendance row, `denied`/0 on an expired or inactive
membership.  The `/api/scan-qr` handler instead rejects the expired
member `mBob` with an error and appends nothing, and for the active
member `mAnn` it appends a row with status `present`, not `granted`. -/
theorem scan_qr_denial_appends_no_record :
    (scan_qr db0 "M2" "Gala" "Adm In" now0 today0).1 = .notActive ∧
    (scan_qr db0 "M2" "Gala" "Adm In" now0 today0).2 = db0 ∧
    ((scan_qr db0 "M1" "Gala" "Adm In" now0 today0).2.attendance.map
        AttendanceRecord.status) = ["granted", "granted", "present"] := by
  decide

/-- C2 (amended): the `/api/scan` handler behaves as claimed: for every
resolvable identifier it appends exactly one attendance row, `granted`
with 10 points when the resolved membership is active and `denied` with 0
points otherwise.  The `/api/scan-qr` handler diverges: it appends exactly
one `present`/10 row when the resolved membership is active and
unexpired by its date-string test, and on a non-active status or an
expired date it returns an error and appends nothing, leaving the store
unchanged. -/
theorem scan_record_contract_amended :
    (∀ db scanned e a now name m,
      resolveScan db scanned = some (name, m) →
      (scan db scanned e a now).2.attendance = db.attendance ++
        [{ member_number := scanned, member_name := name, event_name := e,
           scanned_by := a, timestamp := now,
           points_awarded :=
             if m.status == "active" && strLt now m.expiry_date then 10 else 0,
           status :=
             if m.status == "active" && strLt now m.expiry_date then "granted"
             else "denied" }]) ∧
    (∀ db scanned e an now today name st exp,
      pyStrip scanned = scanned → scanned ≠ "" →
      resolveScanQr db scanned = some (name, st, exp) →
      (st = "active" → strLt exp today = false →
        (scan_qr db scanned e an now today).2.attendance = db.attendance ++
          [{ member_number := scanned, member_name := name,
             event_name := pyStrip e, scanned_by := an, timestamp := now,
             points_awarded := 10, status := "present" }]) ∧
      (st ≠ "active" → scan_qr db scanned e an now today = (.notActive, db)) ∧
      (st = "active" → strLt exp today = true →
        scan_qr db scanned e an now today = (.expired, db))) := by
  constructor
  · intro db scanned e a now name m hres
    simp only [scan, hres]
    cases hc : m.status == "active" && strLt now m.expiry_date <;> simp [hc]
  · intro db scanned e an now today name st exp htrim hne hres
    refine ⟨?_, ?_, ?_⟩
    · intro hst hexp
      simp only [scan_qr, htrim, if_neg hne, hres, hst, hexp]
      cases hp : (db.members.find? (fun m => m.member_number == scanned)).isSome <;>
        simp [hp]
    · intro hst
      simp [scan_qr, htrim, if_neg hne, hres, hst]
    · intro hst hexp
      simp [scan_qr, htrim, if_neg hne, hres, hst, hexp]

/-- C2 witness: the amended contract evaluated on `db0`: the expired
member `mBob` scanned through `/api/scan` still gets a `denied`/0 row
appended, and through `/api/scan-qr` gets nothing appended. -/
theorem scan_record_contract_amended_witness :
    (scan db0 "M2" "Gala" "adm@x.com" now0).2.attendance = db0.attendance ++
      [{ member_number := "M2", member_name := "Bob Stone", event_name := "Gala",
         scanned_by := "adm@x.com", timestamp := now0,
         points_awarded := 0, status := "denied" }] ∧
    scan_qr db0 "M2" "Gala" "Adm In" now0 today0 = (.notActive, db0) := by
  constructor
  · have h := scan_record_contract_amended.1 db0 "M2" "Gala" "adm@x.com" now0
      "Bob Stone" mBob (by decide)
    rw [h]
    decide
  · exact (scan_record_contract_amended.2 db0 "M2" "Gala" "Adm In" now0 today0
      "Bob Stone" "expired" "2027-01-01" (by decide) (by decide) (by decide)).2.1
      (by decide)

/-- C3 counterexample: the claim says a scan of a dependent of an active
member adds the awarded points to the owning member's balance.  Scanning
the dependent `F1` through `/api/scan-qr` records 10 awarded points but
leaves every member's balance unchanged (the update at `server.py`
lines 836-841 runs only for primary members), so the owner `mAnn` keeps
0 points. -/
theorem scan_qr_dependent_credits_no_points :
    (scan_qr db0 "F1" "Gala" "Adm In" now0 today0).1 = .recorded "Kid Smith" 10 ∧
    (scan_qr db0 "F1" "Gala" "Adm In" now0 today0).2.members = db0.members ∧
    mAnn ∈ db0.members ∧ mAnn.id = fKid.primary_member_id ∧ mAnn.points = 0 := by
  decide

/-- C3 (amended): scanning a dependent of an active owner resolves the
display name to the dependent's own name on both endpoints; `/api/scan`
adds the 10 awarded points to the owning member (every member with the
owner's id is credited, every member with a different id and number is
untouched), while `/api/scan-qr` records 10 awarded points in the
attendance row but leaves every member's balance unchanged. -/
theorem scan_dependent_credit_amended :
    (∀ db scanned e a now (fm : FamilyMember) (owner : Member),
      db.members.find? (fun m => m.member_number == scanned) = none →
      db.family_members.find? (fun f => f.member_number == scanned) = some fm →
      db.members.find? (fun m => m.id == fm.primary_member_id) = some owner →
      owner.status = "active" → strLt now owner.expiry_date = true →
      (scan db scanned e a now).1 = .outcome "granted" fm.name 10 ∧
      (∀ x ∈ db.members, x.id = fm.primary_member_id →
        ({ x with points := x.points + 10 } : Member) ∈
          (scan db scanned e a now).2.members) ∧
      (∀ x ∈ db.members, x.id ≠ fm.primary_member_id → x.member_number ≠ scanned →
        x ∈ (scan db scanned e a now).2.members)) ∧
    (∀ db scanned e an now today (fm : FamilyMember) (owner : Member),
      pyStrip scanned = scanned → scanned ≠ "" →
      db.members.find? (fun m => m.member_number == scanned) = none →
      db.family_members.find? (fun f => f.member_number == scanned) = some fm →
      db.members.find? (fun m => m.id == fm.primary_member_id) = some owner →
      owner.status = "active" → strLt owner.expiry_date today = false →
      (scan_qr db scanned e an now today).1 = .recorded fm.name 10 ∧
      (scan_qr db scanned e an now today).2.members = db.members) := by
  constructor
  · intro db scanned e a now fm owner hm hf ho hst hact
    have hres : resolveScan db scanned = some (fm.name, owner) := by
      simp [resolveScan, hm, hf, ho]
    have hcond : (owner.status == "active" && strLt now owner.expiry_date) = true := by
      simp [hst, hact]
    refine ⟨?_, ?_, ?_⟩
    · simp [scan, hres, hcond]
    · intro x hx hid
      simp only [scan, hres, hcond, if_pos, hf, Option.map_some]
      refine List.mem_map.mpr ⟨x, hx, ?_⟩
      simp [hid]
    · intro x hx hid hnum
      simp only [scan, hres, hcond, if_pos, hf, Option.map_some]
      refine List.mem_map.mpr ⟨x, hx, ?_⟩
      simp [hid, hnum]
  · intro db scanned e an now today fm owner htrim hne hm hf ho hst hact
    have hres : resolveScanQr db scanned = some (fm.name, owner.status, owner.expiry_date) := by
      simp [resolveScanQr, hm, hf, ho]
    constructor
    · simp [scan_qr, htrim, hne, hres, hst, hact, hm]
    · simp [scan_qr, htrim, hne, hres, hst, hact, hm]

/-- C3 witness: the amended statement on `db0`: `/api/scan` of the
dependent `F1` grants under the dependent's name and credits the owner
`mAnn` with 10 points; `/api/scan-qr` of `F1` records under the
dependent's name but leaves the members unchanged. -/
theorem scan_dependent_credit_amended_witness :
    (scan db0 "F1" "Gala" "adm@x.com" now0).1 = .outcome "granted" fKid.name 10 ∧
    ({ mAnn with points := mAnn.points + 10 } : Member) ∈
      (scan db0 "F1" "Gala" "adm@x.com" now0).2.members ∧
    (scan_qr db0 "F1" "Gala" "Adm In" now0 today0).2.members = db0.members := by
  have h1 := scan_dependent_credit_amended.1 db0 "F1" "Gala" "adm@x.com" now0
    fKid mAnn (by decide) (by decide) (by decide) rfl (by decide)
  have h2 := scan_dependent_credit_amended.2 db0 "F1" "Gala" "Adm In" now0 today0
    fKid mAnn (by decide) (by decide) (by decide) (by decide) (by decide) rfl
    (by decide)
  exact ⟨h1.1, h1.2.1 mAnn (by decide) (by decide), h2.2⟩

/-- C4 counterexample: an empty scanned identifier resolves to neither a
member nor a dependent, yet `/api/scan-qr` rejects it as a bad request
("Member number required") before any lookup, not with `NotFound`; the
store is still unchanged. -/
theorem scan_qr_empty_identifier_rejected_as_bad_request :
    (scan_qr db0 "" "Gala" "Adm In" now0 today0).1 = .missingNumber ∧
    (scan_qr db0 "" "Gala" "Adm In" now0 today0).1 ≠ .notFound ∧
    (scan_qr db0 "" "Gala" "Adm In" now0 today0).2 = db0 := by
  decide

/-- C4 (amended): for every scanned identifier matching no member and no
dependent, both scan endpoints leave the store unchanged (no attendance
row, no points change); `/api/scan` fails with `NotFound`, and
`/api/scan-qr` fails with `NotFound` for a non-empty (trimmed) identifier
but rejects an empty identifier as a bad request before lookup. -/
theorem scan_unknown_not_found_amended :
    ∀ db scanned e a an now today,
      db.members.find? (fun m => m.member_number == scanned) = none →
      db.family_members.find? (fun f => f.member_number == scanned) = none →
      scan db scanned e a now = (.notFound, db) ∧
      (pyStrip scanned = scanned → scanned ≠ "" →
        scan_qr db scanned e an now today = (.notFound, db)) ∧
      (scanned = "" → scan_qr db scanned e an now today = (.missingNumber, db)) := by
  intro db scanned e a an now today hm hf
  refine ⟨?_, ?_, ?_⟩
  · simp [scan, resolveScan, hm, hf]
  · intro htrim hne
    simp [scan_qr, htrim, hne, resolveScanQr, hm, hf]
  · intro hempty
    subst hempty
    simp [scan_qr, pyStrip]

/-- C4 witness: the unknown identifier `M9` on `db0`. -/
theorem scan_unknown_not_found_amended_witness :
    scan db0 "M9" "Gala" "adm@x.com" now0 = (.notFound, db0) ∧
    scan_qr db0 "M9" "Gala" "Adm In" now0 today0 = (.notFound, db0) := by
  have h := scan_unknown_not_found_amended db0 "M9" "Gala" "adm@x.com" "Adm In"
    now0 today0 (by decide) (by decide)
  exact ⟨h.1, h.2.1 (by decide) (by decide)⟩

/-- C5 counterexample: `mBob`'s stored email and password hash match the
input pair ("bob@x.com", "secret2"), but `login` answers "Account is not
active" instead of returning the member — revealing the account state;
and the non-matching input ("cat@x.com", "") is answered with a
missing-fields error, not `InvalidCredentials`. -/
theorem login_inactive_account_rejected_with_state :
    mBob ∈ db0.members ∧ mBob.email = "bob@x.com" ∧
    mBob.password_hash = hash_password "secret2" ∧
    (login db0 "bob@x.com" "secret2" "tokN" "2026-10-19T00:00:00").1 =
      .accountNotActive ∧
    (login db0 "cat@x.com" "" "tokN" "2026-10-19T00:00:00").1 = .missingFields := by
  decide

/-- C5 (amended): after stripping, an empty identifier or password is
rejected as missing fields; a pair whose phone-or-lowercased-email and
password hash match a stored member returns that member when its status
is `active`, and is rejected with the explicit "account not active"
message (revealing account state) otherwise; every other non-empty pair
is answered `InvalidCredentials` with the store unchanged, the same
constructor whether or not the identifier exists. -/
theorem login_authentication_amended :
    (∀ db id pw tok exp, pyStrip id = "" ∨ pyStrip pw = "" →
      login db id pw tok exp = (.missingFields, db)) ∧
    (∀ db id pw tok exp, pyStrip id ≠ "" → pyStrip pw ≠ "" →
      loginLookup db (pyStrip id) (hash_password (pyStrip pw)) = none →
      login db id pw tok exp = (.invalidCredentials, db)) ∧
    (∀ db id pw tok exp m, pyStrip id ≠ "" → pyStrip pw ≠ "" →
      loginLookup db (pyStrip id) (hash_password (pyStrip pw)) = some m →
      m.status ≠ "active" →
      login db id pw tok exp = (.accountNotActive, db)) ∧
    (∀ db id pw tok exp m, pyStrip id ≠ "" → pyStrip pw ≠ "" →
      loginLookup db (pyStrip id) (hash_password (pyStrip pw)) = some m →
      m.status = "active" →
      (login db id pw tok exp).1 =
        .loggedIn tok (if m.is_admin then "admin" else "member") m
          (loginFamily db m)) := by
  refine ⟨?_, ?_, ?_, ?_⟩
  · intro db id pw tok exp h
    simp [login, h]
  · intro db id pw tok exp h1 h2 hl
    simp [login, h1, h2, hl]
  · intro db id pw tok exp m h1 h2 hl hst
    simp [login, h1, h2, hl, hst]
  · intro db id pw tok exp m h1 h2 hl hst
    simp [login, h1, h2, hl, hst]

/-- C5 witness: on `db0`, Ann's matching active credentials log in and
return her member row; an unknown identifier with some password is
answered `InvalidCredentials` with the store unchanged. -/
theorem login_authentication_amended_witness :
    (login db0 "ann@x.com" "secret1" "tokN" "2026-10-19T00:00:00").1 =
      .loggedIn "tokN" "member" mAnn (loginFamily db0 mAnn) ∧
    login db0 "nosuch@x.com" "pw123" "tokN" "2026-10-19T00:00:00" =
      (.invalidCredentials, db0) := by
  constructor
  · have h := login_authentication_amended.2.2.2 db0 "ann@x.com" "secret1" "tokN"
      "2026-10-19T00:00:00" mAnn (by decide) (by decide) (by decide) rfl
    simpa [mAnn] using h
  · exact login_authentication_amended.2.1 db0 "nosuch@x.com" "pw123" "tokN"
      "2026-10-19T00:00:00" (by decide) (by decide) (by decide)

/-- Modelled from the spec: the validity formula of §4.3 step 2,
`active = (status == "active") AND (expiry_date > now)` with strict
greater-than on the date/time value, so that an expiry exactly equal to
now is not active. -/
def specActive (status expiry now : String) : Bool :=
  status == "active" && strLt now expiry

/-- C6 counterexample: `mCat` is active with expiry exactly equal to the
current instant; the spec formula makes it not active, and `/api/scan`
indeed denies; but `/api/scan-qr` compares the stored expiry string
against today's date string, which is not smaller, so it grants and
awards 10 points — the strict greater-than claim fails on that path. -/
theorem scan_qr_grants_at_expiry_equal_to_now :
    mCat.expiry_date = now0 ∧ mCat.status = "active" ∧
    specActive mCat.status mCat.expiry_date now0 = false ∧
    (scan db0 "M3" "Gala" "adm@x.com" now0).1 = .outcome "denied" "Cat Lee" 0 ∧
    (scan_qr db0 "M3" "Gala" "Adm In" now0 today0).1 = .recorded "Cat Lee" 10 := by
  decide

/-- C6 (amended): `/api/scan` grants exactly when the spec formula holds:
status is `active` and the expiry is strictly greater than now (equality
denies).  `/api/scan-qr` instead grants exactly when the status is
`active` and the stored expiry string is not lexicographically smaller
than today's date string, so an expiry equal to now (or any instant of
today) is treated as active there. -/
theorem scan_validity_test_amended :
    (∀ db scanned e a now name m,
      resolveScan db scanned = some (name, m) →
      ((scan db scanned e a now).1 = .outcome "granted" name 10 ↔
        specActive m.status m.expiry_date now = true)) ∧
    (∀ db scanned e an now today name st exp,
      pyStrip scanned = scanned → scanned ≠ "" →
      resolveScanQr db scanned = some (name, st, exp) →
      ((scan_qr db scanned e an now today).1 = .recorded name 10 ↔
        (st = "active" ∧ strLt exp today = false))) := by
  constructor
  · intro db scanned e a now name m hres
    cases hc : (m.status == "active" && strLt now m.expiry_date) with
    | true => simp [scan, hres, hc, specActive]
    | false => simp [scan, hres, hc, specActive]
  · intro db scanned e an now today name st exp htrim hne hres
    by_cases hst : st = "active"
    · cases hexp : strLt exp today with
      | true => simp [scan_qr, htrim, hne, hres, hst, hexp]
      | false =>
        cases hp : (db.members.find? (fun m => m.member_number == scanned)).isSome <;>
          simp [scan_qr, htrim, hne, hres, hst, hexp, hp]
    · simp [scan_qr, htrim, hne, hres, hst]

/-- C6 witness: the active, unexpired member `mAnn` is granted by
`/api/scan`, matching the spec formula. -/
theorem scan_validity_test_amended_witness :
    (scan db0 "M1" "Gala" "adm@x.com" now0).1 = .outcome "granted" "Ann Smith" 10 ∧
    specActive mAnn.status mAnn.expiry_date now0 = true := by
  have h := scan_validity_test_amended.1 db0 "M1" "Gala" "adm@x.com" now0
    "Ann Smith" mAnn (by decide)
  exact ⟨h.mpr (by decide), by decide⟩

/-- C7 counterexample: with a wrong current password AND a short new
password, `change_password` answers `PasswordTooShort`, not
`WrongCurrentPassword` (the length check runs first); and changing the
password to the current one succeeds while leaving the store identical,
so the old password still authenticates afterwards. -/
theorem change_password_precedence_and_reuse :
    (change_password db0 "ann@x.com" "wrong" "abc").1 = .passwordTooShort ∧
    (change_password db0 "ann@x.com" "wrong" "abc").1 ≠ .wrongCurrentPassword ∧
    change_password db0 "ann@x.com" "secret1" "secret1" = (.changed, db0) := by
  decide

/-- C7 (amended): the hash is injective (collision-free idealisation), so
after a successful change the old password matches the stored hash only
if it equals the new one; a new password shorter than 6 (after stripping)
is rejected as `PasswordTooShort` even when the current password is
wrong; a wrong current password with an acceptable new one is rejected as
`WrongCurrentPassword` with the store unchanged; a correct current
password with a new password of length ≥ 6 succeeds and replaces the
stored hash of the identity's member row with the new password's hash. -/
theorem change_password_amended :
    (∀ a b : String, hash_password a = hash_password b ↔ a = b) ∧
    (∀ db email cur new, pyStrip cur ≠ "" → pyStrip new ≠ "" →
      (pyStrip new).length < 6 →
      change_password db email cur new = (.passwordTooShort, db)) ∧
    (∀ db email cur new m, pyStrip cur ≠ "" → pyStrip new ≠ "" →
      ¬ (pyStrip new).length < 6 →
      db.members.find? (fun x => x.email == email) = some m →
      m.password_hash ≠ hash_password (pyStrip cur) →
      change_password db email cur new = (.wrongCurrentPassword, db)) ∧
    (∀ db email cur new m, pyStrip cur ≠ "" → pyStrip new ≠ "" →
      ¬ (pyStrip new).length < 6 →
      db.members.find? (fun x => x.email == email) = some m →
      m.password_hash = hash_password (pyStrip cur) →
      (change_password db email cur new).1 = .changed ∧
      (change_password db email cur new).2.members =
        db.members.map (fun x =>
          if x.email == email then
            { x with password_hash := hash_password (pyStrip new) }
          else x)) := by
  refine ⟨?_, ?_, ?_, ?_⟩
  · intro a b
    constructor
    · intro h
      have hd := congrArg String.data h
      simp only [hash_password, String.data_append] at hd
      exact String.ext (List.append_cancel_left hd)
    · intro h
      rw [h]
  · intro db email cur new h1 h2 h3
    simp [change_password, h1, h2, h3]
  · intro db email cur new m h1 h2 h3 hfind hne
    simp [change_password, h1, h2, h3, hfind, hne]
  · intro db email cur new m h1 h2 h3 hfind heq
    constructor <;> simp [change_password, h1, h2, h3, hfind, heq]

/-- C7 witness: the amended behaviour on `db0` for Ann: a short new
password is rejected, a wrong current password is rejected with the store
unchanged, a correct change succeeds, and the hashes of two distinct
concrete passwords differ. -/
theorem change_password_amended_witness :
    change_password db0 "ann@x.com" "secret1" "abc" = (.passwordTooShort, db0) ∧
    change_password db0 "ann@x.com" "wrongpw" "newsecret" =
      (.wrongCurrentPassword, db0) ∧
    (change_password db0 "ann@x.com" "secret1" "newsecret").1 = .changed ∧
    ¬ hash_password "secret1" = hash_password "newsecret" := by
  refine ⟨?_, ?_, ?_, ?_⟩
  · exact change_password_amended.2.1 db0 "ann@x.com" "secret1" "abc"
      (by decide) (by decide) (by decide)
  · exact change_password_amended.2.2.1 db0 "ann@x.com" "wrongpw" "newsecret"
      mAnn (by decide) (by decide) (by decide) (by decide) (by decide)
  · exact (change_password_amended.2.2.2 db0 "ann@x.com" "secret1" "newsecret"
      mAnn (by decide) (by decide) (by decide) (by decide) (by decide)).1
  · intro h
    exact absurd ((change_password_amended.1 "secret1" "newsecret").mp h)
      (by decide)

/-- Pointwise comparison of the points column between two member lists of
the same shape. -/
def pointsMono (old new : List Member) : Prop :=
  List.Forall₂ (fun pre post => pre.points ≤ post.points) old new

theorem pointsMono_refl (l : List Member) : pointsMono l l := by
  induction l with
  | nil => exact List.Forall₂.nil
  | cons a t ih => exact List.Forall₂.cons le_rfl ih

theorem pointsMono_map (l : List Member) (f : Member → Member)
    (h : ∀ x, x.points ≤ (f x).points) : pointsMono l (l.map f) := by
  induction l with
  | nil => exact List.Forall₂.nil
  | cons a t ih => exact List.Forall₂.cons (h a) ih

theorem pointsMono_nonneg {old new : List Member} (h : pointsMono old new)
    (h0 : ∀ m ∈ old, 0 ≤ m.points) : ∀ m ∈ new, 0 ≤ m.points := by
  induction h with
  | nil => intro m hm; cases hm
  | cons hr _ ih =>
    intro m hm
    cases hm with
    | head => exact le_trans (h0 _ (List.mem_cons_self _ _)) hr
    | tail _ hmem => exact ih (fun x hx => h0 x (List.mem_cons_of_mem _ hx)) m hmem

theorem login_pointsMono (db : DB) (id pw tok exp : String) :
    pointsMono db.members (login db id pw tok exp).2.members := by
  by_cases h : pyStrip id = "" ∨ pyStrip pw = ""
  · simp only [login, if_pos h]
    exact pointsMono_refl _
  · cases hl : loginLookup db (pyStrip id) (hash_password (pyStrip pw)) with
    | none =>
      simp only [login, if_neg h, hl]
      exact pointsMono_refl _
    | some m =>
      by_cases hst : m.status = "active"
      · simp only [login, if_neg h, hl, hst]
        simp
        exact pointsMono_refl _
      · simp only [login, if_neg h, hl]
        simp [hst]
        exact pointsMono_refl _

theorem scan_pointsMono (db : DB) (s e a now : String) :
    pointsMono db.members (scan db s e a now).2.members := by
  cases hres : resolveScan db s with
  | none =>
    simp only [scan, hres]
    exact pointsMono_refl _
  | some nm =>
    obtain ⟨name, m⟩ := nm
    cases hc : (m.status == "active" && strLt now m.expiry_date) with
    | false =>
      simp only [scan, hres, hc]
      simp
      exact pointsMono_refl _
    | true =>
      simp only [scan, hres, hc]
      simp
      refine pointsMono_map _ _ (fun x => ?_)
      split
      · simp
      · exact le_rfl

theorem scan_qr_pointsMono (db : DB) (s e an now today : String) :
    pointsMono db.members (scan_qr db s e an now today).2.members := by
  by_cases hempty : pyStrip s = ""
  · simp only [scan_qr, if_pos hempty]
    exact pointsMono_refl _
  · cases hres : resolveScanQr db (pyStrip s) with
    | none =>
      simp only [scan_qr, if_neg hempty, hres]
      exact pointsMono_refl _
    | some info =>
      obtain ⟨name, st, exp⟩ := info
      by_cases hst : st = "active"
      · cases hexp : strLt exp today with
        | true =>
          simp only [scan_qr, if_neg hempty, hres, hst, hexp]
          simp
          exact pointsMono_refl _
        | false =>
          cases hp : (db.members.find? (fun m => m.member_number == pyStrip s)).isSome with
          | false =>
            simp only [scan_qr, if_neg hempty, hres, hst, hexp, hp]
            simp [hp]
            exact pointsMono_refl _
          | true =>
            simp only [scan_qr, if_neg hempty, hres, hst, hexp, hp]
            simp [hp]
            refine pointsMono_map _ _ (fun x => ?_)
            split
            · simp
            · exact le_rfl
      · simp only [scan_qr, if_neg hempty, hres]
        simp [hst]
        exact pointsMono_refl _

theorem change_password_pointsMono (db : DB) (em c n : String) :
    pointsMono db.members (change_password db em c n).2.members := by
  by_cases h : pyStrip c = "" ∨ pyStrip n = ""
  · simp only [change_password, if_pos h]
    exact pointsMono_refl _
  · by_cases hlen : (pyStrip n).length < 6
    · simp only [change_password, if_neg h, if_pos hlen]
      exact pointsMono_refl _
    · cases hfind : db.members.find? (fun x => x.email == em) with
      | none =>
        simp only [change_password, if_neg h, if_neg hlen, hfind]
        exact pointsMono_refl _
      | some m =>
        by_cases heq : m.password_hash = hash_password (pyStrip c)
        · simp only [change_password, if_neg h, if_neg hlen, hfind]
          simp [heq]
          refine pointsMono_map _ _ (fun x => ?_)
          split <;> exact le_rfl
        · simp only [change_password, if_neg h, if_neg hlen, hfind]
          simp [heq]
          exact pointsMono_refl _

/-- C9: points balances never decrease and stay non-negative across the
modelled operations other than member deletion: `login`, `/api/scan`,
`/api/scan-qr` and `change_password` are pointwise monotone on the points
column (the only mutation is the +10 increment on a successful scan),
`create_admin` only adds members whose points column is the DEFAULT 0
(bulk import likewise inserts a literal 0 at `server.py` line 350), and
the scan endpoints preserve non-negativity of every balance. -/
theorem points_nonneg_monotone :
    (∀ db id pw tok exp, pointsMono db.members (login db id pw tok exp).2.members) ∧
    (∀ db s e a now, pointsMono db.members (scan db s e a now).2.members) ∧
    (∀ db s e an now today,
      pointsMono db.members (scan_qr db s e an now today).2.members) ∧
    (∀ db em c n, pointsMono db.members (change_password db em c n).2.members) ∧
    (∀ db e p f su n ph i m, m ∈ (create_admin db e p f su n ph i).2.members →
      m ∈ db.members ∨ m.points = 0) ∧
    (∀ db s e a now, (∀ m ∈ db.members, 0 ≤ m.points) →
      ∀ m ∈ (scan db s e a now).2.members, 0 ≤ m.points) ∧
    (∀ db s e an now today, (∀ m ∈ db.members, 0 ≤ m.points) →
      ∀ m ∈ (scan_qr db s e an now today).2.members, 0 ≤ m.points) := by
  refine ⟨login_pointsMono, scan_pointsMono, scan_qr_pointsMono,
    change_password_pointsMono, ?_, ?_, ?_⟩
  · intro db e p f su n ph i m hm
    by_cases hmiss : pyLower (pyStrip e) = "" ∨ pyStrip p = "" ∨ pyStrip f = "" ∨
        pyStrip su = "" ∨ pyStrip n = ""
    · left
      simpa [create_admin, hmiss] using hm
    · cases he : (db.members.find? (fun x => x.email == pyLower (pyStrip e))).isSome with
      | true =>
        left
        simpa [create_admin, hmiss, he] using hm
      | false =>
        cases hn : (db.members.find?
            (fun x => x.member_number == pyStrip n)).isSome with
        | true =>
          left
          simpa [create_admin, hmiss, he, hn] using hm
        | false =>
          simp only [create_admin, if_neg hmiss, he, hn] at hm
          simp at hm
          cases hm with
          | inl h => exact Or.inl h
          | inr h => right; rw [h]
  · intro db s e a now h0
    exact pointsMono_nonneg (scan_pointsMono db s e a now) h0
  · intro db s e an now today h0
    exact pointsMono_nonneg (scan_qr_pointsMono db s e an now today) h0

/-- C9 witness: scanning the active member `M1` on `db0` is monotone on
the points column, and the credited row keeps a non-negative balance. -/
theorem points_nonneg_monotone_witness :
    pointsMono db0.members (scan db0 "M1" "Gala" "adm@x.com" now0).2.members ∧
    0 ≤ ({ mAnn with points := mAnn.points + 10 } : Member).points :=
  ⟨points_nonneg_monotone.2.1 db0 "M1" "Gala" "adm@x.com" now0,
   points_nonneg_monotone.2.2.2.2.2.1 db0 "M1" "Gala" "adm@x.com" now0
     (by decide) { mAnn with points := mAnn.points + 10 } (by decide)⟩

theorem loginLookup_congr (db db' : DB) (h : db'.members = db.members)
    (e p : String) : loginLookup db' e p = loginLookup db e p := by
  unfold loginLookup
  rw [h]

/-- The equation of a successful `login`: the result and the store with
the single appended session row. -/
theorem login_success_eq (db : DB) (id pw tok exp : String) (m : Member)
    (h1 : ¬ (pyStrip id = "" ∨ pyStrip pw = ""))
    (hl : loginLookup db (pyStrip id) (hash_password (pyStrip pw)) = some m)
    (hst : m.status = "active") :
    login db id pw tok exp =
      (.loggedIn tok (if m.is_admin then "admin" else "member") m
         (loginFamily db m),
       { db with sessions := db.sessions ++
          [{ email := m.email, token := tok,
             role := if m.is_admin then "admin" else "member",
             expires_at := exp }] }) := by
  simp [login, h1, hl, hst]

/-- Appending a session whose token differs from the queried one does not
change what `verify_token` answers for that token (provided the member
table is unchanged). -/
theorem verify_token_append_session (db : DB) (s1 : Session) (t now : String)
    (h : s1.token ≠ t) :
    verify_token { db with sessions := db.sessions ++ [s1] } (some t) now =
      verify_token db (some t) now := by
  by_cases ht : t = ""
  · simp [verify_token, ht]
  · have hp : (s1.token == t && strLt now s1.expires_at) = false := by
      simp [h]
    simp only [verify_token, if_neg ht, List.find?_append]
    have hone : List.find? (fun s => s.token == t && strLt now s.expires_at) [s1] = none := by
      simp [List.find?, hp]
    rw [hone]
    simp

/-- C10: a successful `login` inserts exactly one new session row at the
end of the table and leaves every other table and every pre-existing
session row unchanged; it never deletes or invalidates prior tokens — any
other token validates after the login exactly as before — and after two
successive logins for the same identity with fresh distinct tokens, both
issued tokens validate while the current time is before their respective
expiries. -/
theorem login_single_session_frame :
    ∀ db id pw tok exp now m, pyStrip id ≠ "" → pyStrip pw ≠ "" →
      loginLookup db (pyStrip id) (hash_password (pyStrip pw)) = some m →
      m.status = "active" →
      ((login db id pw tok exp).2.sessions = db.sessions ++
        [{ email := m.email, token := tok,
           role := if m.is_admin then "admin" else "member",
           expires_at := exp }]) ∧
      (login db id pw tok exp).2.members = db.members ∧
      (login db id pw tok exp).2.attendance = db.attendance ∧
      (login db id pw tok exp).2.family_members = db.family_members ∧
      (∀ t, t ≠ tok →
        verify_token (login db id pw tok exp).2 (some t) now =
          verify_token db (some t) now) ∧
      (∀ tok2 exp2, tok ≠ "" → tok2 ≠ "" → tok2 ≠ tok →
        strLt now exp = true → strLt now exp2 = true →
        (verify_token (login (login db id pw tok exp).2 id pw tok2 exp2).2
            (some tok) now).isSome = true ∧
        (verify_token (login (login db id pw tok exp).2 id pw tok2 exp2).2
            (some tok2) now).isSome = true) := by
  intro db id pw tok exp now m h1 h2 hl hst
  have hmiss : ¬ (pyStrip id = "" ∨ pyStrip pw = "") := by
    rintro (h | h) <;> [exact h1 h; exact h2 h]
  have hdb1 : (login db id pw tok exp).2 =
      { db with sessions := db.sessions ++
          [{ email := m.email, token := tok,
             role := if m.is_admin then "admin" else "member",
             expires_at := exp }] } :=
    congrArg Prod.snd (login_success_eq db id pw tok exp m hmiss hl hst)
  refine ⟨by rw [hdb1], by rw [hdb1], by rw [hdb1], by rw [hdb1], ?_, ?_⟩
  · intro t htne
    rw [hdb1]
    exact verify_token_append_session db _ t now (by simpa using htne.symm)
  · intro tok2 exp2 htok htok2 hne hexp hexp2
    have hl2 : loginLookup (login db id pw tok exp).2 (pyStrip id)
        (hash_password (pyStrip pw)) = some m := by
      rw [loginLookup_congr db _ (by rw [hdb1])]
      exact hl
    have hdb2 : (login (login db id pw tok exp).2 id pw tok2 exp2).2 =
        { (login db id pw tok exp).2 with
            sessions := (login db id pw tok exp).2.sessions ++
              [{ email := m.email, token := tok2,
                 role := if m.is_admin then "admin" else "member",
                 expires_at := exp2 }] } :=
      congrArg Prod.snd
        (login_success_eq (login db id pw tok exp).2 id pw tok2 exp2 m hmiss hl2 hst)
    constructor
    · apply (verify_token_isSome_iff _ _ _).mpr
      refine ⟨tok, rfl, htok,
        { email := m.email, token := tok,
          role := if m.is_admin then "admin" else "member",
          expires_at := exp }, ?_, rfl, hexp⟩
      rw [hdb2]
      show _ ∈ (login db id pw tok exp).2.sessions ++ _
      rw [hdb1]
      simp
    · apply (verify_token_isSome_iff _ _ _).mpr
      refine ⟨tok2, rfl, htok2,
        { email := m.email, token := tok2,
          role := if m.is_admin then "admin" else "member",
          expires_at := exp2 }, ?_, rfl, hexp2⟩
      rw [hdb2]
      simp

/-- C10 witness: two successive logins for Ann on `db0` with distinct
fresh tokens: the first login appends exactly one session row, and after
the second login both tokens still validate at the current time. -/
theorem login_single_session_frame_witness :
    ((login db0 "ann@x.com" "secret1" "TK1" "2026-10-19T00:00:00").2.sessions =
      db0.sessions ++
        [{ email := "ann@x.com", token := "TK1", role := "member",
           expires_at := "2026-10-19T00:00:00" }]) ∧
    (verify_token
        (login (login db0 "ann@x.com" "secret1" "TK1" "2026-10-19T00:00:00").2
          "ann@x.com" "secret1" "TK2" "2026-10-21T00:00:00").2
        (some "TK1") now0).isSome = true ∧
    (verify_token
        (login (login db0 "ann@x.com" "secret1" "TK1" "2026-10-19T00:00:00").2
          "ann@x.com" "secret1" "TK2" "2026-10-21T00:00:00").2
        (some "TK2") now0).isSome = true := by
  have h := login_single_session_frame db0 "ann@x.com" "secret1" "TK1"
    "2026-10-19T00:00:00" now0 mAnn (by decide) (by decide) (by decide) rfl
  have h2 := h.2.2.2.2.2 "TK2" "2026-10-21T00:00:00" (by decide) (by decide)
    (by decide) (by decide) (by decide)
  exact ⟨by simpa [mAnn] using h.1, h2.1, h2.2⟩

end MHS
